import Mathlib

/-!
Verification of the notes-app service (src/main.py, src/db.py) against its
natural-language specification.

Shallow embedding conventions:
* SQL rows are Lean structures; the three tables (`users`, `registry`, `notes`)
  are lists of rows inside a `DB` record, together with the autoincrement
  counter of the `registry` table.
* `UUID` values and `datetime` values are modelled as `Nat` (uuid4 generation
  and `datetime.now()` reads are external inputs, so each handler takes them
  as explicit arguments, one per call site in the Python source).
* A Python function that can raise an exception which escapes the handler is
  modelled with `Except ApiError`; `Except.error` means the HTTP layer turned
  the exception into an error response and the store is left as it was
  (no SQLAlchemy mutation has been committed at that point).
* Pydantic optional fields (`Body(default=None)`) are `Option String`;
  a PATCH body distinguishes unset / explicit null / value, so its fields are
  `Option (Option String)` (`none` = unset, `some none` = explicit null).
-/

namespace NotesApp

/-- Row of the `users` table (db.py, class `User`): primary key `username`,
plus the stored password hash. -/
structure UserRec where
  username : String
  password : String
deriving Repr, DecidableEq

/-- Row of the `registry` table (db.py, class `Registry`): autoincrement
primary key `id`, owner `username`, note `uuid`. This is the Ownership
Entry of the spec. -/
structure RegEntry where
  id : Nat
  username : String
  uuid : Nat
deriving Repr, DecidableEq

/-- Row of the `notes` table (db.py, class `Note`): primary key `uuid`,
timestamps and text fields. -/
structure NoteRec where
  uuid : Nat
  created_at : Nat
  updated_at : Nat
  title : String
  body : String
deriving Repr, DecidableEq

/-- The relational store behind the repository functions of db.py. -/
structure DB where
  users : List UserRec
  registry : List RegEntry
  notes : List NoteRec
  nextRegId : Nat
deriving Repr, DecidableEq

/-- The store with all three tables empty. -/
def emptyDB : DB := { users := [], registry := [], notes := [], nextRegId := 0 }

/-- Errors surfaced by the handler layer of main.py. `notFound` and
`csvError` are explicit `HTTPException`s in the source; the others are
exceptions that escape the handler (an unhandled exception at the HTTP
boundary). -/
inductive ApiError
  /-- The explicit `HTTPException(status_code=404, detail="Note not found!")`. -/
  | notFound
  /-- An `IntegrityError`: duplicate primary key on `users.username` raised
  by `db.commit()` in `_create_user`; not caught by any handler. -/
  | duplicateUser
  /-- An `IntegrityError`: duplicate primary key on `notes.uuid` raised by
  `db.commit()` in `_post_note`; not caught by any handler. -/
  | conflict
  /-- Any other unhandled exception (e.g. `AttributeError` on
  `None.__dict__`, or SQLAlchemy's error on `db.delete(None)`). -/
  | internalError
  /-- The explicit `HTTPException(status_code=401, detail="CSV seems messed up!")`. -/
  | csvError
deriving Repr, DecidableEq

/-- The pydantic `Note` object of main.py as it is handed to `_update_note`:
its `title`/`body` fields default to `None`, hence `Option String`. -/
structure NoteMsg where
  uuid : Nat
  created_at : Nat
  updated_at : Nat
  title : Option String
  body : Option String
deriving Repr, DecidableEq

/-- db.py `_create_user`: adds the row and commits. The `users.username`
primary-key constraint makes the commit raise `IntegrityError` when the
username is already present; nothing in the repository catches it. -/
def _create_user (db : DB) (username password : String) :
    Except ApiError (DB × UserRec) :=
  if db.users.any (fun u => u.username == username) then
    .error .duplicateUser
  else
    let new_user : UserRec := { username := username, password := password }
    .ok ({ db with users := db.users ++ [new_user] }, new_user)

/-- Modelled from the spec: main.py imports `_get_user` from db, but
src/db.py contains no such definition; the spec's Credential Store gives
its contract as `findUser(username) -> User | NotFound`. -/
def _get_user (db : DB) (username : String) : Option UserRec :=
  db.users.find? (fun u => u.username == username)

/-- db.py `_get_note`: `db.query(Note).filter(Note.uuid == note_id).first()`,
the first row of the `notes` table with the given uuid, or `None`. -/
def _get_note (db : DB) (note_id : Nat) : Option NoteRec :=
  db.notes.find? (fun n => n.uuid == note_id)

/-- db.py `_get_all_notes`: first the list comprehension over the registry
query filtered by the username (the owned uuids), then one `first()` query
per uuid — which yields `None` when the uuid has no row in `notes`, so the
returned list has type `List (Option NoteRec)`. -/
def _get_all_notes (db : DB) (user : String) : List (Option NoteRec) :=
  let uuids := (db.registry.filter (fun r => r.username == user)).map
    (fun r => r.uuid)
  uuids.map (fun u => db.notes.find? (fun n => n.uuid == u))

/-- The spec's `listOwnedNoteIds(username)`: exactly the `uuids` query of
`_get_all_notes` (registry rows filtered by username, projected to uuid). -/
def listOwnedNoteIds (db : DB) (username : String) : List Nat :=
  (db.registry.filter (fun r => r.username == username)).map (fun r => r.uuid)

/-- db.py `_post_note`: inserts a fresh `Note` row copied field by field and
a fresh `Registry` row `(username, uuid)`, then commits. The `notes.uuid`
primary-key constraint makes the commit raise when the uuid already has a
row; the registry key is autoincrement and never conflicts. -/
def _post_note (db : DB) (username : String) (note : NoteRec) :
    Except ApiError (DB × NoteRec) :=
  if db.notes.any (fun n => n.uuid == note.uuid) then
    .error .conflict
  else
    let new_note : NoteRec :=
      { uuid := note.uuid, created_at := note.created_at,
        updated_at := note.updated_at, title := note.title, body := note.body }
    let new_registry : RegEntry :=
      { id := db.nextRegId, username := username, uuid := note.uuid }
    .ok ({ db with notes := db.notes ++ [new_note],
                   registry := db.registry ++ [new_registry],
                   nextRegId := db.nextRegId + 1 }, new_note)

/-- Replace the first row of the `notes` table carrying the given uuid
(SQLAlchemy mutates the single object returned by `first()`). -/
def updateRow : List NoteRec → Nat → NoteRec → List NoteRec
  | [], _, _ => []
  | x :: xs, u, n => if x.uuid == u then n :: xs else x :: updateRow xs u n

/-- db.py `_update_note`: fetches the first row with the uuid; if present,
assigns `updated_at` unconditionally and `title`/`body` only when the
incoming value is not `None` (keeping the prior value otherwise), commits,
and returns the row; returns `None` when no row matches. `created_at` is
never assigned. -/
def _update_note (db : DB) (updated_note : NoteMsg) : Option NoteRec × DB :=
  match db.notes.find? (fun n => n.uuid == updated_note.uuid) with
  | none => (none, db)
  | some note =>
    let note' : NoteRec :=
      { note with
        updated_at := updated_note.updated_at,
        title := updated_note.title.getD note.title,
        body := updated_note.body.getD note.body }
    (some note', { db with notes := updateRow db.notes updated_note.uuid note' })

/-- db.py `_delete_note`: queries the first `Note` row and the first
`Registry` row with the uuid. If the note exists it deletes both and
returns `True`; `db.delete(None)` raises when the registry row is missing
(the invariant says it never is). Returns `False` when the note is absent. -/
def _delete_note (db : DB) (note_id : Nat) : Except ApiError (Bool × DB) :=
  match db.notes.find? (fun n => n.uuid == note_id) with
  | some _ =>
    match db.registry.find? (fun r => r.uuid == note_id) with
    | some _ =>
      .ok (true, { db with
        notes := db.notes.eraseP (fun n => n.uuid == note_id),
        registry := db.registry.eraseP (fun r => r.uuid == note_id) })
    | none => .error .internalError
  | none => .ok (false, db)

/-
Handler layer (main.py). Every handler below runs after `get_current_user`
has resolved the bearer token, so it receives the caller's username where
the source receives the `user` dependency.
-/

/-- main.py `register`: hashes the password (passlib `sha256_crypt`, an
external collaborator, modelled as a tagging injection) and calls
`_create_user`; no exception handling around the duplicate case. -/
def get_hashed_password (password : String) : String :=
  "$5$" ++ password

/-- main.py `register` handler body. -/
def register (db : DB) (username password : String) :
    Except ApiError (DB × UserRec) :=
  _create_user db username (get_hashed_password password)

/-- main.py `get_all_notes` handler: returns `_get_all_notes` for the
caller. -/
def get_all_notes (db : DB) (user : String) : List (Option NoteRec) :=
  _get_all_notes db user

/-- main.py `get_note` handler: fetches by id via `_get_note` and 404s when
absent. The `user` argument resolved from the token is never consulted. -/
def get_note (db : DB) (user : String) (note_id : Nat) :
    Except ApiError NoteRec :=
  match _get_note db note_id with
  | some note => .ok note
  | none => .error .notFound

/-- main.py `post_note` handler: builds a `Note` with a fresh uuid and two
separate `datetime.now()` reads (`tCreated` for `created_at`, `tUpdated`
for `updated_at`), mapping an absent `title`/`body` to `""` via Python's
`or` (which sends both `None` and `""` to `""`, i.e. `Option.getD ""`),
then persists it with `_post_note`. -/
def post_note (db : DB) (user : String) (title body : Option String)
    (uuid tCreated tUpdated : Nat) : Except ApiError (DB × NoteRec) :=
  _post_note db user
    { uuid := uuid, created_at := tCreated, updated_at := tUpdated,
      title := title.getD "", body := body.getD "" }

/-- main.py `update_note` (PUT) handler: builds a pydantic `Note` whose
`created_at`/`updated_at` are two fresh `datetime.now()` reads and whose
`title`/`body` come straight from the request (possibly `None`), passes it
to `_update_note`, and 404s when that returns `None`. -/
def update_note (db : DB) (note_id : Nat) (title body : Option String)
    (tCreated tUpdated : Nat) : Except ApiError (DB × NoteRec) :=
  match _update_note db
    { uuid := note_id, created_at := tCreated, updated_at := tUpdated,
      title := title, body := body } with
  | (some note, db') => .ok (db', note)
  | (none, _) => .error .notFound

/-- The PATCH request body (pydantic `NoteBase` with
`model_dump(exclude_unset=True)`): each field is unset (`none`), explicit
null (`some none`), or a value (`some (some s)`). -/
structure PatchMsg where
  title : Option (Option String)
  body : Option (Option String)
deriving Repr, DecidableEq

/-- main.py `patch_note` handler: fetches the row with `_get_note`; when it
is `None` the very next line `Note(**(note.__dict__))` raises
`AttributeError` (the handler's own 404 branch is unreachable for a missing
id). Otherwise it copies the row into a pydantic `Note`, overlays exactly
the fields present in the request (`model_copy(update=...)`; a field set to
explicit null becomes `None`), and hands the result to `_update_note`.
No `datetime.now()` is read anywhere in this handler: the overlaid
`updated_at` is the stored one. -/
def patch_note (db : DB) (note_id : Nat) (new_data : PatchMsg) :
    Except ApiError (DB × NoteRec) :=
  match _get_note db note_id with
  | none => .error .internalError
  | some note =>
    let updated_note : NoteMsg :=
      { uuid := note.uuid, created_at := note.created_at,
        updated_at := note.updated_at,
        title := match new_data.title with
          | none => some note.title
          | some v => v,
        body := match new_data.body with
          | none => some note.body
          | some v => v }
    match _update_note db updated_note with
    | (some note', db') => .ok (db', note')
    | (none, _) => .error .notFound

/-- main.py `delete_note` handler: `_delete_note`; `True` yields the
success payload, `False` yields the 404; a crash inside `_delete_note`
escapes unhandled. -/
def delete_note (db : DB) (note_id : Nat) :
    Except ApiError (String × DB) :=
  match _delete_note db note_id with
  | .error e => .error e
  | .ok (true, db') => .ok ("Deleted note successfully!", db')
  | .ok (false, _) => .error .notFound

/-- One parsed row of the uploaded CSV file (`row.get("title")`,
`row.get("body")`, each `None` when the column is missing). -/
structure CsvRow where
  title : Option String
  body : Option String
deriving Repr, DecidableEq

/-- The body of the `upload_csv` loop for one row: the source calls
`post_note(EditableNote(title=title, body=body))` — without the required
`user` argument (`user` has no default: its `Depends` sits inside
`Annotated`), so the call raises `TypeError` on every row; the bare
`except:` turns it into the 401 `HTTPException`. -/
def upload_csv_row (db : DB) (row : CsvRow) : Except ApiError DB :=
  .error .csvError

/-- main.py `upload_csv` loop: processes rows in order, counting successes,
aborting on the first failing row. -/
def upload_csv_loop (db : DB) (rows : List CsvRow) (total_rows : Nat) :
    Except ApiError (Nat × DB) :=
  match rows with
  | [] => .ok (total_rows, db)
  | row :: rest =>
    match upload_csv_row db row with
    | .ok db' => upload_csv_loop db' rest (total_rows + 1)
    | .error e => .error e

/-- main.py `upload_csv` handler: runs the loop from zero and formats the
result message. -/
def upload_csv (db : DB) (rows : List CsvRow) :
    Except ApiError (String × DB) :=
  match upload_csv_loop db rows 0 with
  | .ok (n, db') =>
    .ok (toString n ++ " note" ++ (if n > 1 then "s" else "")
         ++ " uploaded and created successfully!", db')
  | .error e => .error e

/-- A single note-creation request (one call of the `post_note` handler):
the authenticated caller, the request body, and the per-request external
inputs (the generated uuid and the two clock reads). -/
structure CreateEv where
  user : String
  title : Option String
  body : Option String
  uuid : Nat
  t1 : Nat
  t2 : Nat
deriving Repr, DecidableEq

/-- A sequence of note creations, each handled by `post_note`; the first
failing creation aborts the run (its exception is unhandled). -/
def runCreations (db : DB) : List CreateEv → Except ApiError DB
  | [] => .ok db
  | ev :: evs =>
    match post_note db ev.user ev.title ev.body ev.uuid ev.t1 ev.t2 with
    | .ok (db', _) => runCreations db' evs
    | .error e => .error e

/-- The note row a creation event stores. -/
def createdNote (ev : CreateEv) : NoteRec :=
  { uuid := ev.uuid, created_at := ev.t1, updated_at := ev.t2,
    title := ev.title.getD "", body := ev.body.getD "" }

/-- The store after one successful creation: the note row and its
ownership entry appended, the autoincrement key advanced. -/
def applyCreate (db : DB) (ev : CreateEv) : DB :=
  { users := db.users,
    registry := db.registry ++ [⟨db.nextRegId, ev.user, ev.uuid⟩],
    notes := db.notes ++ [createdNote ev],
    nextRegId := db.nextRegId + 1 }

/-
Concrete stores and inputs used by the witnesses and counterexamples below.
-/

/-- Store for the C1 witness: a note created (and owned, per the registry)
by `bob`; the caller in the witness is `alice`. -/
def dbC1 : DB :=
  { users := [⟨"alice", "$5$pw1"⟩, ⟨"bob", "$5$pw2"⟩],
    registry := [⟨0, "bob", 7⟩],
    notes := [⟨7, 10, 10, "bobs title", "bobs body"⟩],
    nextRegId := 1 }

/-- Store for the C6 failing input: no note with uuid 1 exists. -/
def dbC6 : DB :=
  { users := [⟨"alice", "$5$pw"⟩], registry := [], notes := [],
    nextRegId := 0 }

/-- Store for the C8 witness: `alice` is already registered. -/
def dbC8 : DB :=
  { users := [⟨"alice", "$5$pw1"⟩], registry := [], notes := [],
    nextRegId := 0 }

/-- Store for the C9 counterexample: the registry says `alice` owns note 7,
but the `notes` table has no row 7 (the dangling-ownership situation the
claim is about). -/
def dbC9 : DB :=
  { users := [⟨"alice", "$5$pw"⟩], registry := [⟨0, "alice", 7⟩],
    notes := [], nextRegId := 1 }

/-- Store for the C10 failing input. -/
def dbC10 : DB :=
  { users := [⟨"carol", "$5$pw"⟩], registry := [], notes := [],
    nextRegId := 0 }

/-- Store for the C3 counterexample. -/
def dbC3 : DB :=
  { users := [⟨"alice", "$5$pw"⟩], registry := [], notes := [],
    nextRegId := 0 }

/-- The note produced by the C3 counterexample creation: clock reads 0 and
1 give `created_at = 0`, `updated_at = 1`. -/
def noteC3 : NoteRec := ⟨5, 0, 1, "A", "B"⟩

/-- Store for the C3 amended witness. -/
def dbC3w : DB :=
  { users := [⟨"dora", "$5$pw"⟩], registry := [], notes := [],
    nextRegId := 0 }

/-- Store for the C4 witness: one note with `updated_at = 3`. -/
def dbC4 : DB :=
  { users := [⟨"erin", "$5$pw"⟩], registry := [⟨0, "erin", 2⟩],
    notes := [⟨2, 1, 3, "old title", "old body"⟩], nextRegId := 1 }

/-- The single note of the C5 stores, with `updated_at = 0`. -/
def noteC5 : NoteRec := ⟨1, 0, 0, "t", "b"⟩

/-- Store for the C5 counterexample. -/
def dbC5 : DB :=
  { users := [⟨"alice", "$5$pw"⟩], registry := [⟨0, "alice", 1⟩],
    notes := [noteC5], nextRegId := 1 }

/-- Store for the C5 amended witness. -/
def dbC5w : DB :=
  { users := [⟨"fred", "$5$pw"⟩], registry := [⟨0, "fred", 3⟩],
    notes := [⟨3, 2, 6, "keep me", "old"⟩], nextRegId := 1 }

/-- Store for the C7 witness: one note, one matching ownership entry. -/
def dbC7 : DB :=
  { users := [⟨"gina", "$5$pw"⟩], registry := [⟨0, "gina", 4⟩],
    notes := [⟨4, 0, 0, "bye", "note"⟩], nextRegId := 1 }

/-- The creation sequence of the C2 witness: `alice` creates notes 1 and
3, `bob` creates note 2. -/
def evsC2 : List CreateEv :=
  [⟨"alice", some "a1", some "b1", 1, 0, 0⟩,
   ⟨"bob", some "a2", some "b2", 2, 1, 1⟩,
   ⟨"alice", none, none, 3, 2, 2⟩]


section ListLemmas

variable {α : Type} {p : α → Bool}

/-- If the rows matching `p` are exactly `[a]`, the first matching row is
`a`. -/
theorem find?_of_filter_singleton :
    ∀ {l : List α} {a : α}, l.filter p = [a] → l.find? p = some a := by
  intro l
  induction l with
  | nil => intro a h; simp at h
  | cons x xs ih =>
    intro a h
    by_cases hp : p x
    · rw [List.filter_cons_of_pos hp] at h
      injection h with h1 h2
      subst h1
      exact List.find?_cons_of_pos xs hp
    · rw [List.filter_cons_of_neg hp] at h
      rw [List.find?_cons_of_neg xs hp]
      exact ih h

/-- Deleting the first row matching `p` from a table whose matching rows
are exactly `[a]` leaves no matching row. -/
theorem filter_eraseP_of_filter_singleton :
    ∀ {l : List α} {a : α}, l.filter p = [a] → (l.eraseP p).filter p = [] := by
  intro l
  induction l with
  | nil => intro a h; simp at h
  | cons x xs ih =>
    intro a h
    by_cases hp : p x
    · rw [List.filter_cons_of_pos hp] at h
      injection h with h1 h2
      rw [List.eraseP_cons_of_pos hp]
      exact h2
    · rw [List.filter_cons_of_neg hp] at h
      rw [List.eraseP_cons_of_neg hp, List.filter_cons_of_neg hp]
      exact ih h

/-- A table with no row matching `p` yields `none` on `first()`. -/
theorem find?_eq_none_of_filter_nil {l : List α} (h : l.filter p = []) :
    l.find? p = none :=
  List.find?_eq_none.2 (List.filter_eq_nil_iff.1 h)

/-- A `first()` query skips a prefix with no matching row. -/
theorem find?_append_of_none {l₁ l₂ : List α} (h : l₁.find? p = none) :
    (l₁ ++ l₂).find? p = l₂.find? p := by
  rw [List.find?_append, h, Option.none_or]

end ListLemmas

/-- Replacing the first matching row by the row that is already there
leaves the table unchanged. -/
theorem updateRow_self :
    ∀ {l : List NoteRec} {u : Nat} {n : NoteRec},
      l.find? (fun x => x.uuid == u) = some n → updateRow l u n = l := by
  intro l
  induction l with
  | nil => intro u n h; simp [List.find?] at h
  | cons x xs ih =>
    intro u n h
    by_cases hp : (x.uuid == u) = true
    · rw [List.find?_cons_of_pos xs hp] at h
      injection h with h1
      subst h1
      simp [updateRow, hp]
    · rw [List.find?_cons_of_neg xs (by simpa using hp)] at h
      simp only [updateRow]
      rw [if_neg hp, ih h]

/- ======================================================================
Claim C1
====================================================================== -/

/-- C1: for every authenticated caller and every note id present in
storage, `get_note` returns that note based only on the id: the result is
identical for any two callers — the handler never consults the ownership
registry before returning the note. -/
theorem get_note_ignores_caller (db : DB) (a b : String) (note_id : Nat)
    (n : NoteRec) (h : _get_note db note_id = some n) :
    get_note db a note_id = .ok n ∧
    get_note db a note_id = get_note db b note_id := by
  constructor
  · simp [get_note, h]
  · rfl

/-- C1 witness: `alice` fetches note 7 although it is owned by `bob`, and
gets exactly what `bob` would get. -/
theorem get_note_ignores_caller_witness :
    get_note dbC1 "alice" 7 = .ok ⟨7, 10, 10, "bobs title", "bobs body"⟩ ∧
    get_note dbC1 "alice" 7 = get_note dbC1 "bob" 7 :=
  get_note_ignores_caller dbC1 "alice" "bob" 7
    ⟨7, 10, 10, "bobs title", "bobs body"⟩ (by decide)

/- ======================================================================
Claim C6
====================================================================== -/

/-- C6: the claim (and the spec's table) says a PATCH whose note id is
absent fails with NotFound (404). The code fetches `None` and immediately
evaluates `Note(**(note.__dict__))`, raising `AttributeError` — an
unhandled 500, not the 404 of the handler's own (unreachable) `NotFound`
branch. The store is indeed left unchanged (the crash happens before any
write). This evaluates the embedded handler at the failing input. -/
theorem patch_missing_note_crashes :
    _get_note dbC6 1 = none ∧
    patch_note dbC6 1 ⟨none, none⟩ = .error .internalError ∧
    patch_note dbC6 1 ⟨none, none⟩ ≠ .error .notFound := by
  refine ⟨rfl, rfl, ?_⟩
  intro hc
  injection hc with h2
  exact ApiError.noConfusion h2

/- ======================================================================
Claim C8
====================================================================== -/

/-- C8: registering a username that is already present in the credential
store fails with the duplicate-user error (the `users.username` primary-key
constraint rejects the insert at commit), and — `Except.error` carrying no
store in this embedding — the store, in particular the existing user
record, is left exactly as it was. -/
theorem register_duplicate_fails (db : DB) (u : UserRec) (pw : String)
    (h : u ∈ db.users) :
    register db u.username pw = .error .duplicateUser ∧
    _get_user db u.username ≠ none := by
  have hany : db.users.any (fun x => x.username == u.username) = true :=
    List.any_eq_true.2 ⟨u, h, by simp⟩
  constructor
  · simp [register, _create_user, hany]
  · intro hc
    unfold _get_user at hc
    rw [List.find?_eq_none] at hc
    exact hc u h (by simp)

/-- C8 witness: re-registering `alice` is rejected with the duplicate-user
error. -/
theorem register_duplicate_fails_witness :
    register dbC8 "alice" "newpassword" = .error .duplicateUser ∧
    _get_user dbC8 "alice" ≠ none :=
  register_duplicate_fails dbC8 ⟨"alice", "$5$pw1"⟩ "newpassword" (by decide)

/- ======================================================================
Claim C9
====================================================================== -/

/-- C9 counterexample: the claim says an owned id missing from storage is
*skipped*, so with one owned id and no stored note the listing would be
`[]` with one Note record per existing id and no placeholder. The code
instead returns `[none]`: the `first()` query for the missing row yields
`None`, which is kept in the list as a placeholder, not skipped. -/
theorem get_all_notes_dangling_placeholder :
    listOwnedNoteIds dbC9 "alice" = [7] ∧
    _get_note dbC9 7 = none ∧
    get_all_notes dbC9 "alice" = [none] ∧
    get_all_notes dbC9 "alice" ≠ [] := by
  refine ⟨rfl, rfl, rfl, by decide⟩

/-- C9 amended: the listing never fails (it is a total query), and returns
exactly one entry per owned id — the Note for each owned id present in
storage, and a `None` placeholder (not a skip) for each owned id missing
from storage. -/
theorem get_all_notes_placeholder_per_owned_id (db : DB) (user : String) :
    get_all_notes db user =
      (listOwnedNoteIds db user).map (fun i => _get_note db i) ∧
    (get_all_notes db user).length = (listOwnedNoteIds db user).length ∧
    ((none : Option NoteRec) ∈ get_all_notes db user ↔
      ∃ i ∈ listOwnedNoteIds db user, _get_note db i = none) := by
  refine ⟨rfl, by simp [get_all_notes, _get_all_notes, listOwnedNoteIds], ?_⟩
  show (none : Option NoteRec) ∈
      (listOwnedNoteIds db user).map (fun i => _get_note db i) ↔ _
  simp [List.mem_map, eq_comm]

/- ======================================================================
Claim C10
====================================================================== -/

/-- C10: the claim says each valid row of a bulk import creates one note
(a 3-row valid file creates exactly 3 notes). In the source every row
fails: the loop body calls `post_note(EditableNote(...))` without the
required `user` parameter (whose `Depends` default lives inside
`Annotated`, so the parameter has no Python default), raising `TypeError`;
the bare `except:` converts it to the 401 "CSV seems messed up!" response.
So a 3-row valid file yields the 401 error and creates zero notes — the
spec describes the evident intent and the missing argument is a slip. -/
theorem upload_csv_three_valid_rows_fails :
    upload_csv dbC10
      [⟨some "t1", some "b1"⟩, ⟨some "t2", some "b2"⟩, ⟨some "t3", some "b3"⟩]
      = .error .csvError ∧
    upload_csv dbC10 [] = .ok ("0 note uploaded and created successfully!", dbC10) := by
  exact ⟨rfl, rfl⟩

/- ======================================================================
Claim C3
====================================================================== -/

/-- C3 counterexample: the handler fills `created_at` and `updated_at`
from two *separate* `datetime.now()` calls, so with clock reads 0 then 1
the stored note has `created_at = 0 ≠ 1 = updated_at`, refuting the
claim's unconditional `created_at == updated_at` at creation. -/
theorem post_note_created_ne_updated :
    post_note dbC3 "alice" (some "A") (some "B") 5 0 1 =
      .ok ({ users := [⟨"alice", "$5$pw"⟩], registry := [⟨0, "alice", 5⟩],
             notes := [noteC3], nextRegId := 1 }, noteC3) ∧
    noteC3.created_at ≠ noteC3.updated_at := by
  exact ⟨rfl, by decide⟩

/-- C3 amended: creating a note with a fresh uuid and then immediately
fetching it by id returns identical title and body to what create stored,
an absent title or body is stored as the empty string, and — since the two
timestamps come from two successive clock reads — `created_at ≤ updated_at`
under a monotone clock, with equality exactly when the two reads coincide
(rather than unconditional equality). -/
theorem post_note_then_get (db : DB) (user : String)
    (title body : Option String) (uuid t1 t2 : Nat)
    (hfresh : _get_note db uuid = none) (hmono : t1 ≤ t2) :
    ∃ db' n, post_note db user title body uuid t1 t2 = .ok (db', n) ∧
      _get_note db' uuid = some n ∧
      get_note db' user uuid = .ok n ∧
      n.title = title.getD "" ∧ n.body = body.getD "" ∧
      n.created_at = t1 ∧ n.updated_at = t2 ∧
      n.created_at ≤ n.updated_at ∧
      (n.created_at = n.updated_at ↔ t1 = t2) := by
  have hnone : db.notes.find? (fun n => n.uuid == uuid) = none := hfresh
  have hany : db.notes.any (fun n => n.uuid == uuid) = false := by
    rw [List.find?_eq_none] at hnone
    simp only [List.any_eq_false]
    exact hnone
  have hget : _get_note
      { db with
        notes := db.notes ++
          [{ uuid := uuid, created_at := t1, updated_at := t2,
             title := title.getD "", body := body.getD "" }],
        registry := db.registry ++ [⟨db.nextRegId, user, uuid⟩],
        nextRegId := db.nextRegId + 1 } uuid
      = some { uuid := uuid, created_at := t1, updated_at := t2,
               title := title.getD "", body := body.getD "" } := by
    show List.find? (fun n => n.uuid == uuid)
      (db.notes ++ [{ uuid := uuid, created_at := t1, updated_at := t2,
                      title := title.getD "", body := body.getD "" }]) = _
    rw [find?_append_of_none hnone]
    simp
  refine ⟨_, _, ?_, hget, ?_, rfl, rfl, rfl, rfl, hmono, Iff.rfl⟩
  · simp [post_note, _post_note, hany]
  · unfold get_note
    rw [hget]

/-- C3 amended witness: creating a note with absent body at coinciding
clock reads, then fetching it. -/
theorem post_note_then_get_witness :
    _get_note dbC3w 9 = none ∧
    ∃ db' n, post_note dbC3w "dora" (some "T") none 9 4 4 = .ok (db', n) ∧
      _get_note db' 9 = some n ∧
      get_note db' "dora" 9 = .ok n ∧
      n.title = (some "T").getD "" ∧ n.body = (none : Option String).getD "" ∧
      n.created_at = 4 ∧ n.updated_at = 4 ∧
      n.created_at ≤ n.updated_at ∧
      (n.created_at = n.updated_at ↔ 4 = 4) :=
  ⟨by decide,
   post_note_then_get dbC3w "dora" (some "T") none 9 4 4 (by decide)
     (by decide)⟩

/- ======================================================================
Claim C4
====================================================================== -/

/-- C4: replacing an existing note (PUT) sets `updated_at` to the
request's clock read, which under a monotone clock (the read is at or
after the one that stamped the stored `updated_at`) is ≥ the previous
`updated_at`; any field that is absent (`None`) in the request retains its
prior value — in particular a replace supplying only `title` leaves `body`
unchanged. -/
theorem update_note_replace (db : DB) (note_id : Nat) (n : NoteRec)
    (title body : Option String) (tc tu : Nat)
    (h : _get_note db note_id = some n) (hmono : n.updated_at ≤ tu) :
    ∃ db' n', update_note db note_id title body tc tu = .ok (db', n') ∧
      n'.updated_at = tu ∧
      n.updated_at ≤ n'.updated_at ∧
      (title = none → n'.title = n.title) ∧
      (body = none → n'.body = n.body) ∧
      n'.title = title.getD n.title ∧ n'.body = body.getD n.body ∧
      n'.created_at = n.created_at ∧ n'.uuid = n.uuid := by
  have hfind : db.notes.find? (fun x => x.uuid == note_id) = some n := h
  have hupd : update_note db note_id title body tc tu =
      .ok ({ users := db.users, registry := db.registry,
             notes := updateRow db.notes note_id
               ({ uuid := n.uuid, created_at := n.created_at, updated_at := tu,
                  title := title.getD n.title, body := body.getD n.body }),
             nextRegId := db.nextRegId },
           { uuid := n.uuid, created_at := n.created_at, updated_at := tu,
             title := title.getD n.title, body := body.getD n.body }) := by
    simp only [update_note, _update_note, hfind]
  refine ⟨_, _, hupd, rfl, hmono, ?_, ?_, rfl, rfl, rfl, rfl⟩
  · intro ht; rw [ht]; rfl
  · intro hb; rw [hb]; rfl

/-- C4 witness: a replace supplying only `title` at clock read 8 bumps
`updated_at` from 3 to 8 and leaves `body` unchanged. -/
theorem update_note_replace_witness :
    ∃ db' n', update_note dbC4 2 (some "new title") none 8 8 = .ok (db', n') ∧
      n'.updated_at = 8 ∧
      (⟨2, 1, 3, "old title", "old body"⟩ : NoteRec).updated_at ≤ n'.updated_at ∧
      ((some "new title" : Option String) = none →
        n'.title = (⟨2, 1, 3, "old title", "old body"⟩ : NoteRec).title) ∧
      ((none : Option String) = none →
        n'.body = (⟨2, 1, 3, "old title", "old body"⟩ : NoteRec).body) ∧
      n'.title = (some "new title").getD "old title" ∧
      n'.body = (none : Option String).getD "old body" ∧
      n'.created_at = 1 ∧ n'.uuid = 2 :=
  update_note_replace dbC4 2 ⟨2, 1, 3, "old title", "old body"⟩
    (some "new title") none 8 8 (by decide) (by decide)

/- ======================================================================
Claim C5
====================================================================== -/

/-- C5 counterexample: a PATCH with no fields present returns the stored
note and the store completely unchanged — `updated_at` keeps its prior
value 0. The claim says such a patch "refreshes the updated_at timestamp";
but the patch handler never reads the clock (the overlaid `updated_at` is
the stored one), so for every request arriving at a time other than 0 the
claimed refresh does not happen: the patch is a total no-op. -/
theorem patch_no_fields_does_not_refresh :
    patch_note dbC5 1 ⟨none, none⟩ = .ok (dbC5, noteC5) ∧
    noteC5.updated_at = 0 := by
  exact ⟨rfl, rfl⟩

/-- C5 amended: for an existing note, a patch changes only the fields
explicitly present in the request: patching only `body` leaves `title`
(and `created_at`, and also `updated_at` — the handler reads no clock)
unchanged, and a patch with no fields present changes nothing at all,
returning the stored note and the unchanged store (no timestamp refresh). -/
theorem patch_only_present_fields (db : DB) (note_id : Nat) (n : NoteRec)
    (s : String) (h : _get_note db note_id = some n) :
    (∃ db' n', patch_note db note_id ⟨none, some (some s)⟩ = .ok (db', n') ∧
      n'.title = n.title ∧ n'.body = s ∧
      n'.updated_at = n.updated_at ∧ n'.created_at = n.created_at) ∧
    patch_note db note_id ⟨none, none⟩ = .ok (db, n) := by
  have hfind : db.notes.find? (fun x => x.uuid == note_id) = some n := h
  have huuid' : n.uuid = note_id := by
    have hb := List.find?_some hfind
    simpa using hb
  have hrow : updateRow db.notes note_id n = db.notes :=
    updateRow_self hfind
  have hn : ({ uuid := note_id, created_at := n.created_at,
               updated_at := n.updated_at, title := n.title,
               body := n.body } : NoteRec) = n := by
    rw [← huuid']
  constructor
  · have hp1 : patch_note db note_id ⟨none, some (some s)⟩ =
        .ok ({ users := db.users, registry := db.registry,
               notes := updateRow db.notes note_id
                 ({ uuid := note_id, created_at := n.created_at,
                    updated_at := n.updated_at, title := n.title, body := s }),
               nextRegId := db.nextRegId },
             { uuid := note_id, created_at := n.created_at,
               updated_at := n.updated_at, title := n.title, body := s }) := by
      simp only [patch_note, h, _update_note, huuid', hfind, Option.getD_some]
    exact ⟨_, _, hp1, rfl, rfl, rfl, rfl⟩
  · have hp2 : patch_note db note_id ⟨none, none⟩ =
        .ok ({ users := db.users, registry := db.registry,
               notes := updateRow db.notes note_id
                 ({ uuid := note_id, created_at := n.created_at,
                    updated_at := n.updated_at, title := n.title,
                    body := n.body }),
               nextRegId := db.nextRegId },
             { uuid := note_id, created_at := n.created_at,
               updated_at := n.updated_at, title := n.title,
               body := n.body }) := by
      simp only [patch_note, h, _update_note, huuid', hfind, Option.getD_some]
    rw [hp2, hn, hrow]

/-- C5 amended witness: patching only `body` on note 3 leaves its title
and timestamps alone, and an empty patch is a complete no-op. -/
theorem patch_only_present_fields_witness :
    (∃ db' n', patch_note dbC5w 3 ⟨none, some (some "fresh")⟩ = .ok (db', n') ∧
      n'.title = (⟨3, 2, 6, "keep me", "old"⟩ : NoteRec).title ∧
      n'.body = "fresh" ∧
      n'.updated_at = (⟨3, 2, 6, "keep me", "old"⟩ : NoteRec).updated_at ∧
      n'.created_at = (⟨3, 2, 6, "keep me", "old"⟩ : NoteRec).created_at) ∧
    patch_note dbC5w 3 ⟨none, none⟩ = .ok (dbC5w, ⟨3, 2, 6, "keep me", "old"⟩) :=
  patch_only_present_fields dbC5w 3 ⟨3, 2, 6, "keep me", "old"⟩ "fresh"
    (by decide)

/- ======================================================================
Claim C7
====================================================================== -/

/-- C7: deleting an existing note removes both the Note row and its
Ownership Entry together (the hypotheses are the primary-key / pairing
invariants: exactly one `notes` row and exactly one `registry` row carry
the id); afterwards fetching the id returns NotFound, and deleting the
same id a second time returns NotFound as well, not any other error. -/
theorem delete_note_removes_both (db : DB) (note_id : Nat) (n : NoteRec)
    (r : RegEntry) (u : String)
    (hn : db.notes.filter (fun x => x.uuid == note_id) = [n])
    (hr : db.registry.filter (fun x => x.uuid == note_id) = [r]) :
    ∃ db', delete_note db note_id = .ok ("Deleted note successfully!", db') ∧
      db'.notes.filter (fun x => x.uuid == note_id) = [] ∧
      db'.registry.filter (fun x => x.uuid == note_id) = [] ∧
      get_note db' u note_id = .error .notFound ∧
      delete_note db' note_id = .error .notFound := by
  have hfn : db.notes.find? (fun x => x.uuid == note_id) = some n :=
    find?_of_filter_singleton hn
  have hfr : db.registry.find? (fun x => x.uuid == note_id) = some r :=
    find?_of_filter_singleton hr
  have hdel : delete_note db note_id =
      .ok ("Deleted note successfully!",
        { users := db.users,
          registry := db.registry.eraseP (fun x => x.uuid == note_id),
          notes := db.notes.eraseP (fun x => x.uuid == note_id),
          nextRegId := db.nextRegId }) := by
    simp only [delete_note, _delete_note, hfn, hfr]
  have hn' : (db.notes.eraseP (fun x => x.uuid == note_id)).filter
      (fun x => x.uuid == note_id) = [] := filter_eraseP_of_filter_singleton hn
  have hr' : (db.registry.eraseP (fun x => x.uuid == note_id)).filter
      (fun x => x.uuid == note_id) = [] := filter_eraseP_of_filter_singleton hr
  have hfn' : (db.notes.eraseP (fun x => x.uuid == note_id)).find?
      (fun x => x.uuid == note_id) = none := find?_eq_none_of_filter_nil hn'
  refine ⟨_, hdel, hn', hr', ?_, ?_⟩
  · simp only [get_note, _get_note, hfn']
  · simp only [delete_note, _delete_note, hfn']

/-- C7 witness: deleting note 4 removes the note row and the ownership
row, a subsequent fetch 404s, and a second delete 404s. -/
theorem delete_note_removes_both_witness :
    ∃ db', delete_note dbC7 4 = .ok ("Deleted note successfully!", db') ∧
      db'.notes.filter (fun x => x.uuid == 4) = [] ∧
      db'.registry.filter (fun x => x.uuid == 4) = [] ∧
      get_note db' "gina" 4 = .error .notFound ∧
      delete_note db' 4 = .error .notFound :=
  delete_note_removes_both dbC7 4 ⟨4, 0, 0, "bye", "note"⟩ ⟨0, "gina", 4⟩
    "gina" (by decide) (by decide)

/- ======================================================================
Claim C2
====================================================================== -/

/-- A creation whose uuid is not yet in the notes table succeeds and
produces exactly the `applyCreate` store. -/
theorem post_note_fresh (db : DB) (ev : CreateEv)
    (hany : db.notes.any (fun n => n.uuid == ev.uuid) = false) :
    post_note db ev.user ev.title ev.body ev.uuid ev.t1 ev.t2 =
      .ok (applyCreate db ev, createdNote ev) := by
  unfold post_note _post_note
  simp only []
  rw [hany]
  rfl

/-- Effect of one creation on the owned-ids listing of any user. -/
theorem mem_listOwned_applyCreate (db : DB) (ev : CreateEv) (A : String)
    (x : Nat) :
    x ∈ listOwnedNoteIds (applyCreate db ev) A ↔
      (x ∈ listOwnedNoteIds db A ∨ (ev.user = A ∧ ev.uuid = x)) := by
  unfold listOwnedNoteIds applyCreate
  simp only [List.filter_append, List.map_append, List.mem_append]
  by_cases hA : ev.user = A
  · subst hA
    simp [List.filter_cons]
    exact or_congr Iff.rfl ⟨Eq.symm, Eq.symm⟩
  · simp [List.filter_cons, hA, show (ev.user == A) = false by simpa using hA]

/-- Running a sequence of creations whose uuids are fresh for the store
and pairwise distinct succeeds, and the owned-ids listing of any user A
afterwards holds exactly the prior owned ids plus the uuids of the events
A issued. -/
theorem runCreations_mem (evs : List CreateEv) :
    ∀ db : DB,
      (∀ ev ∈ evs, ∀ n ∈ db.notes, ¬ n.uuid = ev.uuid) →
      ((evs.map (fun e => e.uuid)).Nodup) →
      ∃ db', runCreations db evs = .ok db' ∧
        ∀ A x, x ∈ listOwnedNoteIds db' A ↔
          (x ∈ listOwnedNoteIds db A ∨ ∃ ev ∈ evs, ev.user = A ∧ ev.uuid = x) := by
  induction evs with
  | nil =>
    intro db hfresh hnd
    exact ⟨db, rfl, by simp⟩
  | cons ev evs ih =>
    intro db hfresh hnd
    rw [List.map_cons, List.nodup_cons] at hnd
    obtain ⟨hnotin, hnd1⟩ := hnd
    have hanyf : db.notes.any (fun n => n.uuid == ev.uuid) = false := by
      simp only [List.any_eq_false]
      intro n hn
      simpa using hfresh ev (by simp) n hn
    have hstep : runCreations db (ev :: evs) =
        runCreations (applyCreate db ev) evs := by
      simp only [runCreations, post_note_fresh db ev hanyf]
    have hhead : ∀ e ∈ evs, ¬ ev.uuid = e.uuid := by
      intro e he heq
      exact hnotin (List.mem_map.2 ⟨e, he, heq.symm⟩)
    have hfresh1 : ∀ e ∈ evs, ∀ n ∈ (applyCreate db ev).notes,
        ¬ n.uuid = e.uuid := by
      intro e he n hn
      rcases List.mem_append.1 hn with hn' | hn'
      · exact hfresh e (List.mem_cons_of_mem ev he) n hn'
      · have hne : n = createdNote ev := by simpa using hn'
        rw [hne]
        exact hhead e he
    obtain ⟨db', hrun, hmem⟩ := ih (applyCreate db ev) hfresh1 hnd1
    refine ⟨db', by rw [hstep]; exact hrun, ?_⟩
    intro A x
    rw [hmem A x, mem_listOwned_applyCreate db ev A x]
    constructor
    · rintro ((hx | ⟨hu, hx⟩) | ⟨e, he, hu, hx⟩)
      · exact Or.inl hx
      · exact Or.inr ⟨ev, by simp, hu, hx⟩
      · exact Or.inr ⟨e, List.mem_cons_of_mem ev he, hu, hx⟩
    · rintro (hx | ⟨e, he, hu, hx⟩)
      · exact Or.inl (Or.inl hx)
      · rcases List.mem_cons.1 he with rfl | he'
        · exact Or.inl (Or.inr ⟨hu, hx⟩)
        · exact Or.inr ⟨e, he', hu, hx⟩

/-- C2: for every pair of distinct users A and B, after any sequence of
note creations (each with a fresh random uuid, modelled as pairwise
distinct) starting from the empty store, the owned-note-ids listing for A
holds exactly the uuids of the notes created by A and no uuid of a note
created by B. -/
theorem listOwnedNoteIds_exact (evs : List CreateEv) (A B : String)
    (hAB : A ≠ B) (hnd : (evs.map (fun e => e.uuid)).Nodup) :
    ∃ db', runCreations emptyDB evs = .ok db' ∧
      (∀ x, x ∈ listOwnedNoteIds db' A ↔
        ∃ ev ∈ evs, ev.user = A ∧ ev.uuid = x) ∧
      (∀ ev ∈ evs, ev.user = B → ev.uuid ∉ listOwnedNoteIds db' A) := by
  obtain ⟨db', hrun, hmem⟩ :=
    runCreations_mem evs emptyDB (by simp [emptyDB]) hnd
  have hchar : ∀ x, x ∈ listOwnedNoteIds db' A ↔
      ∃ ev ∈ evs, ev.user = A ∧ ev.uuid = x := by
    intro x
    rw [hmem A x]
    simp [listOwnedNoteIds, emptyDB]
  refine ⟨db', hrun, hchar, ?_⟩
  intro ev hev hB hx
  obtain ⟨ev', hev', hA', huu⟩ := (hchar ev.uuid).1 hx
  have heq : ev' = ev :=
    List.inj_on_of_nodup_map hnd hev' hev huu
  rw [heq] at hA'
  exact hAB (hA' ▸ (hB ▸ rfl))

/-- C2 witness: after the three creations, `alice`'s owned ids are exactly
the uuids she created and contain no uuid that `bob` created. -/
theorem listOwnedNoteIds_exact_witness :
    ("alice" : String) ≠ "bob" ∧
    (evsC2.map (fun e => e.uuid)).Nodup ∧
    (∃ db', runCreations emptyDB evsC2 = .ok db' ∧
      (∀ x, x ∈ listOwnedNoteIds db' "alice" ↔
        ∃ ev ∈ evsC2, ev.user = "alice" ∧ ev.uuid = x) ∧
      (∀ ev ∈ evsC2, ev.user = "bob" →
        ev.uuid ∉ listOwnedNoteIds db' "alice")) :=
  ⟨by decide, by decide,
   listOwnedNoteIds_exact evsC2 "alice" "bob" (by decide) (by decide)⟩

end NotesApp
